import Mathlib

/-!
# Verification of the cyclical learning-rate scheduler (`cyclical_lr.py`)

Shallow embedding of the single source file of the repository, which defines
the Keras callback class `CyclicLR` with:

* the built-in waveform `CyclicLR.triangular` (lines 38-51),
* the registry `available_funcs` (line 53),
* the constructor `__init__` (lines 56-72), which raises
  `CycleFunctionUnavailable` when a waveform name is not in the registry,
* `cycle` (lines 74-77), which computes the new rate, writes it to the
  optimizer and increments the epoch counter,
* the lifecycle hooks `on_epoch_begin` and `on_epoch_end` (lines 79-84).

Python floats are modelled as rationals, Python ints as integers; the
floor division `//` is `Int.fdiv` and true division `/` is division in `ℚ`.
The optimizer learning rate (`self.model.optimizer.lr`, set through
`K.set_value`) is threaded explicitly as a `ℚ` value next to the scheduler
state; the value a Python method returns is modelled as an `Option ℚ`
(`none` for an implicit `return None`).
-/

/-- A waveform function, per the documented contract: it takes
`(epoch_counter, stepsize, min_lr, max_lr, decay)` and yields a rate. -/
def Waveform : Type := ℤ → ℤ → ℚ → ℚ → ℚ → ℚ

/-- Source line 46: `cycle = np.floor(1 + epoch_counter//(2*stepsize))`.
The argument of `np.floor` is the integer `1 + epoch_counter // (2*stepsize)`
(Python floor division), on which `floor` is the identity. -/
def cycleIndex (epoch_counter stepsize : ℤ) : ℤ :=
  1 + Int.fdiv epoch_counter (2 * stepsize)

/-- Source line 47: `x = np.abs(epoch_counter/stepsize - 2 * cycle + 1)`
(true division, hence computed in `ℚ`). -/
def xPos (epoch_counter stepsize : ℤ) : ℚ :=
  |(epoch_counter : ℚ) / (stepsize : ℚ) - 2 * (cycleIndex epoch_counter stepsize : ℚ) + 1|

/-- Source line 49:
`min_lr -= (min_lr * (decay * cycle)) if (min_lr * (decay * cycle)) < min_lr else 0`,
i.e. the effective lower bound after the conditional decay step. -/
def effectiveMin (epoch_counter stepsize : ℤ) (min_lr decay : ℚ) : ℚ :=
  min_lr -
    (if min_lr * (decay * (cycleIndex epoch_counter stepsize : ℚ)) < min_lr then
      min_lr * (decay * (cycleIndex epoch_counter stepsize : ℚ))
    else 0)

/-- Source line 50: `max_lr -= max_lr * (decay * cycle)`, i.e. the effective
upper bound after the unconditional decay step. -/
def effectiveMax (epoch_counter stepsize : ℤ) (max_lr decay : ℚ) : ℚ :=
  max_lr - max_lr * (decay * (cycleIndex epoch_counter stepsize : ℚ))

/-- `CyclicLR.triangular` (source lines 38-51).  After the two decay
rebindings the function returns
`min_lr + (max_lr - min_lr) * max(0, (1-x))` (line 51). -/
def triangular (epoch_counter stepsize : ℤ) (min_lr max_lr decay : ℚ) : ℚ :=
  effectiveMin epoch_counter stepsize min_lr decay
    + (effectiveMax epoch_counter stepsize max_lr decay
        - effectiveMin epoch_counter stepsize min_lr decay)
      * max 0 (1 - xPos epoch_counter stepsize)

/-- Source line 53: `available_funcs = {'triangular' : triangular}`,
the fixed name-to-function registry. -/
def available_funcs : List (String × Waveform) :=
  [("triangular", triangular)]

/-- The exception class `CycleFunctionUnavailable` (source lines 8-9),
carrying the message built at source lines 69-71. -/
inductive SchedulerError where
  | cycleFunctionUnavailable (msg : String) : SchedulerError

/-- The message built at source lines 69-71.  The template is a triple-quoted
string with a single placeholder; `format` is called with two arguments
(`cycle_function` and the joined registry names), so only the first argument
is substituted and the list of registered names never appears in the
message. -/
def unknownFuncMsg (cycle_function : String) : String :=
  "  could not find the function : " ++ cycle_function ++
    " functions are available. Please use one of those arguments \n" ++
    "                            or provide your own function, which accepts the followin args: epoch_counter,\n" ++
    "                            stepsize, min_lr, max_lr, decay"

/-- The scheduler state: the attributes set by `__init__`
(source lines 56-64). -/
structure CyclicLR where
  stepsize : ℤ
  max_lr : ℚ
  min_lr : ℚ
  epoch_counter : ℤ
  decay : ℚ
  func : Waveform

/-- `CyclicLR.__init__` (source lines 56-72).  `cycle_function` is either a
callable (left) or a name (right); a name is looked up in `available_funcs`
and a failed lookup raises `CycleFunctionUnavailable`.  No other validation
is performed: `stepsize`, `max_lr`, `min_lr` and `decay` are stored as
given. -/
def init (stepsize : ℤ) (max_lr min_lr : ℚ)
    (cycle_function : Waveform ⊕ String) (decay : ℚ) :
    Except SchedulerError CyclicLR :=
  match cycle_function with
  | Sum.inl f => Except.ok ⟨stepsize, max_lr, min_lr, 0, decay, f⟩
  | Sum.inr name =>
    match available_funcs.lookup name with
    | some f => Except.ok ⟨stepsize, max_lr, min_lr, 0, decay, f⟩
    | none => Except.error (SchedulerError.cycleFunctionUnavailable (unknownFuncMsg name))

/-- `CyclicLR.cycle` (source lines 74-77): computes
`new_lr = self.func(self.epoch_counter, self.stepsize, self.min_lr, self.max_lr, self.decay)`,
writes it to the optimizer via `K.set_value`, and increments
`self.epoch_counter` by 1.  The method body has no `return` statement, so it
returns Python `None`, modelled as `Option.none`.  Result:
`(new scheduler state, new optimizer lr, returned value)`. -/
def cycle (s : CyclicLR) : CyclicLR × ℚ × Option ℚ :=
  let new_lr := s.func s.epoch_counter s.stepsize s.min_lr s.max_lr s.decay
  ({ s with epoch_counter := s.epoch_counter + 1 }, new_lr, none)

/-- `CyclicLR.on_epoch_begin` (source lines 79-80): just calls `cycle`. -/
def on_epoch_begin (s : CyclicLR) : CyclicLR × ℚ :=
  ((cycle s).1, (cycle s).2.1)

/-- `CyclicLR.on_epoch_end` (source lines 82-84): reads the optimizer lr and
records it under the key `lr` in the logs mapping; the scheduler state and
the optimizer are untouched. -/
def on_epoch_end (s : CyclicLR) (optimizer_lr : ℚ) (logs : List (String × ℚ)) :
    CyclicLR × ℚ × List (String × ℚ) :=
  (s, optimizer_lr, logs ++ [("lr", optimizer_lr)])

/-- Modelled from the spec: `reset_to_floor` is described by the spec
("sets the externally observed learning rate to `min_lr` directly, bypassing
the waveform") but no corresponding method (`reset_to_floor` or an
`on_train_begin` hook) is present in the source file under `src/`.  The
result pairs the (unchanged) scheduler with the new optimizer rate. -/
def reset_to_floor (s : CyclicLR) : CyclicLR × ℚ :=
  (s, s.min_lr)

/-- Modelled from the spec: the `ConfigurationError` exception the spec
assigns to invalid helper arguments; no such class exists in the source. -/
inductive ConfigurationError where
  | invalidArgument : ConfigurationError
deriving DecidableEq

/-- Modelled from the spec: `stepsize_candidates(batch_size, n_samples)` is
described by the spec (suggests `floor(multiplier * samples_per_epoch / 2)`
for `multiplier` in 2..9 with `samples_per_epoch = n_samples / batch_size`,
failing with `ConfigurationError` when `batch_size <= 0`) but is absent from
the source file under `src/`. -/
def stepsize_candidates (batch_size n_samples : ℤ) :
    Except ConfigurationError (List ℤ) :=
  if batch_size ≤ 0 then Except.error ConfigurationError.invalidArgument
  else Except.ok
    (([2, 3, 4, 5, 6, 7, 8, 9] : List ℤ).map
      (fun m => ⌊(m : ℚ) * ((n_samples : ℚ) / (batch_size : ℚ)) / 2⌋))

/-- The decay formula claimed by the spec for `triangular` (claim C1):
`effective_max = max_lr * (1 - decay) ^ (cycle_index - 1)` and
`effective_min = min_lr * (1 - decay) ^ (cycle_index - 1)`, with
`rate = effective_min + (effective_max - effective_min) * triangle_height`.
The exponent `cycle_index - 1` is non-negative whenever the counter is
non-negative and the stepsize positive, so it is taken through `Int.toNat`. -/
def triangularClaimedFormula (epoch_counter stepsize : ℤ) (min_lr max_lr decay : ℚ) : ℚ :=
  min_lr * (1 - decay) ^ (cycleIndex epoch_counter stepsize - 1).toNat
    + (max_lr * (1 - decay) ^ (cycleIndex epoch_counter stepsize - 1).toNat
        - min_lr * (1 - decay) ^ (cycleIndex epoch_counter stepsize - 1).toNat)
      * max 0 (1 - xPos epoch_counter stepsize)

/-- The decay formula the source actually implements, written in the closed
multiplicative form of the amended claim C1: both bounds are scaled by the
single factor `1 - decay * cycle_index`, except that the lower bound keeps
its undecayed value `min_lr` when `decay * cycle_index ≥ 1`. -/
def triangularAmendedFormula (epoch_counter stepsize : ℤ) (min_lr max_lr decay : ℚ) : ℚ :=
  (if decay * (cycleIndex epoch_counter stepsize : ℚ) < 1 then
      min_lr * (1 - decay * (cycleIndex epoch_counter stepsize : ℚ))
    else min_lr)
    + (max_lr * (1 - decay * (cycleIndex epoch_counter stepsize : ℚ))
        - (if decay * (cycleIndex epoch_counter stepsize : ℚ) < 1 then
            min_lr * (1 - decay * (cycleIndex epoch_counter stepsize : ℚ))
          else min_lr))
      * max 0 (1 - xPos epoch_counter stepsize)

/-- Whether the second character list starts with the first. -/
def startsWithChars : List Char → List Char → Bool
  | [], _ => true
  | _ :: _, [] => false
  | a :: as, b :: bs => a == b && startsWithChars as bs

/-- Whether the first character list occurs contiguously inside the second. -/
def containsChars : List Char → List Char → Bool
  | needle, [] => startsWithChars needle []
  | needle, b :: bs => startsWithChars needle (b :: bs) || containsChars needle bs

-- Sanity checks of the embedding on concrete inputs (spec section 8 example:
-- stepsize=4, min_lr=0.001, max_lr=0.006, decay=0 at counters 0, 2, 4, 6, 8).
example : triangular 0 4 (1/1000) (6/1000) 0 = 1/1000 := by
  norm_num [triangular, effectiveMin, effectiveMax, xPos, cycleIndex, Int.fdiv, max_def, abs]
example : triangular 2 4 (1/1000) (6/1000) 0 = 35/10000 := by
  norm_num [triangular, effectiveMin, effectiveMax, xPos, cycleIndex, Int.fdiv, max_def, abs]
example : triangular 4 4 (1/1000) (6/1000) 0 = 6/1000 := by
  norm_num [triangular, effectiveMin, effectiveMax, xPos, cycleIndex, Int.fdiv, max_def, abs]
example : triangular 6 4 (1/1000) (6/1000) 0 = 35/10000 := by
  norm_num [triangular, effectiveMin, effectiveMax, xPos, cycleIndex, Int.fdiv, max_def, abs]
example : triangular 8 4 (1/1000) (6/1000) 0 = 1/1000 := by
  norm_num [triangular, effectiveMin, effectiveMax, xPos, cycleIndex, Int.fdiv, max_def, abs]

/-! ## Helper lemmas -/

lemma xPos_nonneg (c s : ℤ) : 0 ≤ xPos c s := abs_nonneg _

lemma triangleHeight_nonneg (c s : ℤ) : 0 ≤ max 0 (1 - xPos c s) := le_max_left _ _

lemma triangleHeight_le_one (c s : ℤ) : max 0 (1 - xPos c s) ≤ 1 :=
  max_le zero_le_one (by linarith [xPos_nonneg c s])

lemma effectiveMin_decay_zero (c s : ℤ) (lo : ℚ) : effectiveMin c s lo 0 = lo := by
  simp [effectiveMin]

lemma effectiveMax_decay_zero (c s : ℤ) (hi : ℚ) : effectiveMax c s hi 0 = hi := by
  simp [effectiveMax]

/-- The returned rate is a convex combination of the two effective bounds,
so it lies between them whenever they are in the right order. -/
lemma triangular_between (c s : ℤ) (lo hi d : ℚ)
    (h : effectiveMin c s lo d ≤ effectiveMax c s hi d) :
    effectiveMin c s lo d ≤ triangular c s lo hi d ∧
      triangular c s lo hi d ≤ effectiveMax c s hi d := by
  have h0 := triangleHeight_nonneg c s
  have h1 := triangleHeight_le_one c s
  unfold triangular
  constructor <;> nlinarith

lemma cycleIndex_add_period (c s : ℤ) (hs : 0 < s) :
    cycleIndex (c + 2 * s) s = cycleIndex c s + 1 := by
  have h2s : (2 * s : ℤ) ≠ 0 := by omega
  have h2s' : (0 : ℤ) ≤ 2 * s := by omega
  unfold cycleIndex
  have hrw : c + 2 * s = c + 1 * (2 * s) := by ring
  rw [hrw, Int.fdiv_eq_ediv (c + 1 * (2 * s)) h2s', Int.fdiv_eq_ediv c h2s',
    Int.add_mul_ediv_right c 1 h2s]
  ring

lemma xPos_add_period (c s : ℤ) (hs : 0 < s) : xPos (c + 2 * s) s = xPos c s := by
  have hsQ : (s : ℚ) ≠ 0 := by exact_mod_cast hs.ne'
  unfold xPos
  rw [cycleIndex_add_period c s hs]
  push_cast
  congr 1
  field_simp
  ring

/-! ## Claim theorems -/

/-- Claim C2 (confirmed): for every valid configuration (positive integer
stepsize, `0 < min_lr < max_lr`) with `decay = 0`, the rate computed by the
triangular waveform — and hence by every `cycle()` call — lies in the closed
interval `[min_lr, max_lr]` for every non-negative counter. -/
theorem triangular_bounded_of_decay_zero (c s : ℤ) (lo hi : ℚ)
    (hc : 0 ≤ c) (hs : 0 < s) (hlo : 0 < lo) (hlohi : lo < hi) :
    lo ≤ triangular c s lo hi 0 ∧ triangular c s lo hi 0 ≤ hi := by
  have h := triangular_between c s lo hi 0
    (by rw [effectiveMin_decay_zero, effectiveMax_decay_zero]; linarith)
  rwa [effectiveMin_decay_zero, effectiveMax_decay_zero] at h

/-- Witness for C2 at counter 3, stepsize 2, bounds 1 and 2. -/
theorem triangular_bounded_of_decay_zero_witness :
    (0 : ℤ) ≤ 3 ∧ (0 : ℤ) < 2 ∧ (0 : ℚ) < 1 ∧ (1 : ℚ) < 2 ∧
      (1 ≤ triangular 3 2 1 2 0 ∧ triangular 3 2 1 2 0 ≤ 2) :=
  ⟨by decide, by decide, by norm_num, by norm_num,
    triangular_bounded_of_decay_zero 3 2 1 2 (by decide) (by decide)
      (by norm_num) (by norm_num)⟩

/-- Claim C3 (confirmed): with `decay = 0` the triangular waveform is
periodic with period `2 * stepsize`: for every non-negative counter and
positive stepsize,
`triangular (counter + 2*stepsize) stepsize min_lr max_lr 0 = triangular counter stepsize min_lr max_lr 0`. -/
theorem triangular_periodic_of_decay_zero (c s : ℤ) (lo hi : ℚ)
    (hc : 0 ≤ c) (hs : 0 < s) :
    triangular (c + 2 * s) s lo hi 0 = triangular c s lo hi 0 := by
  unfold triangular
  rw [effectiveMin_decay_zero, effectiveMin_decay_zero, effectiveMax_decay_zero,
    effectiveMax_decay_zero, xPos_add_period c s hs]

/-- Witness for C3 at counter 1, stepsize 2, bounds 1 and 2. -/
theorem triangular_periodic_of_decay_zero_witness :
    (0 : ℤ) ≤ 1 ∧ (0 : ℤ) < 2 ∧
      triangular (1 + 2 * 2) 2 1 2 0 = triangular 1 2 1 2 0 :=
  ⟨by decide, by decide,
    triangular_periodic_of_decay_zero 1 2 1 2 (by decide) (by decide)⟩

/-- Counterexample to claim C1 as stated: at counter 0, stepsize 1,
`min_lr = 1`, `max_lr = 2`, `decay = 1/2`, the source computes rate `1/2`
(it scales the bounds by `1 - decay * cycle_index`), strictly below the
value `1` given by the claimed formula with the factor
`(1 - decay) ^ (cycle_index - 1)`. -/
theorem triangular_claimed_formula_refuted :
    triangular 0 1 1 2 (1/2) < triangularClaimedFormula 0 1 1 2 (1/2) := by
  norm_num [triangular, triangularClaimedFormula, effectiveMin, effectiveMax,
    xPos, cycleIndex, Int.fdiv, max_def, abs]

/-- Claim C1 (corrected): for every non-negative counter, positive integer
stepsize, bounds `0 < min_lr < max_lr` and `decay ≥ 0`, the built-in
triangular waveform computes the rate as
`effective_min + (effective_max - effective_min) * triangle_height` with
`effective_max = max_lr * (1 - decay * cycle_index)` and
`effective_min = min_lr * (1 - decay * cycle_index)` when
`decay * cycle_index < 1`, and `effective_min = min_lr` otherwise — a
multiplicative per-call factor, not the claimed exponential
`(1 - decay) ^ (cycle_index - 1)`. -/
theorem triangular_decay_uses_multiplicative_factor (c s : ℤ) (lo hi d : ℚ)
    (hc : 0 ≤ c) (hs : 0 < s) (hlo : 0 < lo) (hlohi : lo < hi) (hd : 0 ≤ d) :
    triangular c s lo hi d = triangularAmendedFormula c s lo hi d := by
  have hiff : lo * (d * (cycleIndex c s : ℚ)) < lo ↔ d * (cycleIndex c s : ℚ) < 1 :=
    mul_lt_iff_lt_one_right hlo
  unfold triangular triangularAmendedFormula effectiveMin effectiveMax
  rcases lt_or_le (d * (cycleIndex c s : ℚ)) 1 with h | h
  · rw [if_pos h, if_pos (hiff.mpr h)]
    ring
  · have hn1 : ¬ lo * (d * (cycleIndex c s : ℚ)) < lo := fun hlt =>
      absurd (hiff.mp hlt) (not_lt.mpr h)
    rw [if_neg (not_lt.mpr h), if_neg hn1]
    ring

/-- Witness for the amended C1 at counter 1, stepsize 1, bounds 1 and 2,
decay 1/2. -/
theorem triangular_decay_uses_multiplicative_factor_witness :
    (0 : ℤ) ≤ 1 ∧ (0 : ℤ) < 1 ∧ (0 : ℚ) < 1 ∧ (1 : ℚ) < 2 ∧ (0 : ℚ) ≤ 1/2 ∧
      triangular 1 1 1 2 (1/2) = triangularAmendedFormula 1 1 1 2 (1/2) :=
  ⟨by decide, by decide, by norm_num, by norm_num, by norm_num,
    triangular_decay_uses_multiplicative_factor 1 1 1 2 (1/2) (by decide)
      (by decide) (by norm_num) (by norm_num) (by norm_num)⟩

/-- Counterexample to claim C7 as stated: the effective bounds can cross.
At counter 2, stepsize 1, `min_lr = 1`, `max_lr = 2`, `decay = 1`
(a valid configuration per the spec, whose only decay constraint is
`decay ≥ 0`), the cycle index is 2, so the effective upper bound is
`2 - 2 * (1 * 2) = -2` while the clamp keeps the effective lower bound
at `1`: the upper bound lies strictly below the lower bound. -/
theorem effective_bounds_cross :
    effectiveMax 2 1 2 1 < effectiveMin 2 1 1 1 := by
  norm_num [effectiveMin, effectiveMax, cycleIndex, Int.fdiv]

/-- Claim C7 (corrected): for every valid configuration with `decay > 0`
and every non-negative counter such that `decay * cycle_index < 1`, the
rate lies within `[effective_min, effective_max]` for the current cycle and
`effective_min ≤ effective_max`; without the bound on `decay * cycle_index`
the effective bounds can cross (see the counterexample). -/
theorem triangular_within_effective_bounds (c s : ℤ) (lo hi d : ℚ)
    (hc : 0 ≤ c) (hs : 0 < s) (hlo : 0 < lo) (hlohi : lo < hi) (hd : 0 < d)
    (hdk : d * (cycleIndex c s : ℚ) < 1) :
    effectiveMin c s lo d ≤ effectiveMax c s hi d ∧
      effectiveMin c s lo d ≤ triangular c s lo hi d ∧
        triangular c s lo hi d ≤ effectiveMax c s hi d := by
  have hmin : effectiveMin c s lo d = lo * (1 - d * (cycleIndex c s : ℚ)) := by
    unfold effectiveMin
    rw [if_pos ((mul_lt_iff_lt_one_right hlo).mpr hdk)]
    ring
  have hmax : effectiveMax c s hi d = hi * (1 - d * (cycleIndex c s : ℚ)) := by
    unfold effectiveMax
    ring
  have hle : effectiveMin c s lo d ≤ effectiveMax c s hi d := by
    rw [hmin, hmax]
    exact mul_le_mul_of_nonneg_right hlohi.le (by linarith)
  exact ⟨hle, triangular_between c s lo hi d hle⟩

/-- Witness for the amended C7 at counter 1, stepsize 1, bounds 1 and 2,
decay 1/4 (cycle index 1, so the decay factor is 1/4 < 1). -/
theorem triangular_within_effective_bounds_witness :
    (1/4 : ℚ) * ((cycleIndex 1 1 : ℤ) : ℚ) < 1 ∧
      (effectiveMin 1 1 1 (1/4) ≤ effectiveMax 1 1 2 (1/4) ∧
        effectiveMin 1 1 1 (1/4) ≤ triangular 1 1 1 2 (1/4) ∧
          triangular 1 1 1 2 (1/4) ≤ effectiveMax 1 1 2 (1/4)) :=
  ⟨by norm_num [cycleIndex, Int.fdiv],
    triangular_within_effective_bounds 1 1 1 2 (1/4) (by decide) (by decide)
      (by norm_num) (by norm_num) (by norm_num)
      (by norm_num [cycleIndex, Int.fdiv])⟩

/-- Counterexample to claim C4 as stated: `cycle` does not return the
computed rate.  On the state with stepsize 1, `max_lr = 2`, `min_lr = 1`,
counter 0, decay 0 and the triangular waveform, the computed (and written)
rate is `1`, but the method body has no `return` statement, so the call
returns Python `None`. -/
theorem cycle_return_value_counterexample :
    (cycle (⟨1, 2, 1, 0, 0, triangular⟩ : CyclicLR)).2.2 = none ∧
      triangular 0 1 1 2 0 = 1 :=
  ⟨rfl, by norm_num [triangular, effectiveMin, effectiveMax, xPos, cycleIndex,
    Int.fdiv, max_def, abs]⟩

/-- Claim C4 (corrected): every `cycle()` call computes the rate with the
counter value from before the call, writes that rate to the external
optimizer, and increments the counter by exactly 1; the counter is mutated
by no other operation (`on_epoch_begin` only delegates to `cycle`, and
`on_epoch_end` leaves the scheduler untouched) and never resets.  However
`cycle` returns `None` (the body has no `return` statement), not the
computed rate. -/
theorem cycle_spec_amended (s : CyclicLR) (lr : ℚ) (logs : List (String × ℚ)) :
    (cycle s).2.1 = s.func s.epoch_counter s.stepsize s.min_lr s.max_lr s.decay ∧
      (cycle s).1.epoch_counter = s.epoch_counter + 1 ∧
        (cycle s).2.2 = none ∧
          on_epoch_begin s = ((cycle s).1, (cycle s).2.1) ∧
            (on_epoch_end s lr logs).1 = s ∧
              (on_epoch_end s lr logs).2.1 = lr :=
  ⟨rfl, rfl, rfl, rfl, rfl, rfl⟩

/-- Counterexample to claim C5 as stated: construction with `stepsize = 0`
(and any other argument combination) succeeds; `__init__` performs no
validation whatsoever, and no `ConfigurationError` class exists in the
source. -/
theorem init_accepts_zero_stepsize :
    init 0 (1/100) (1/100000) (Sum.inr ("triangular")) 0 =
      Except.ok ⟨0, 1/100, 1/100000, 0, 0, triangular⟩ :=
  rfl

/-- Claim C5 (corrected): construction never fails on numeric arguments.
For every stepsize (including 0 and negative values), every pair of bounds
(including inverted ones) and every decay (including negative values),
`__init__` stores the arguments as given and succeeds, both for a callable
waveform and for the registered name.  The only construction-time failure
is `CycleFunctionUnavailable` for an unknown waveform name. -/
theorem init_performs_no_validation (st : ℤ) (hi lo d : ℚ) (f : Waveform) :
    init st hi lo (Sum.inl f) d = Except.ok ⟨st, hi, lo, 0, d, f⟩ ∧
      init st hi lo (Sum.inr ("triangular")) d = Except.ok ⟨st, hi, lo, 0, d, triangular⟩ :=
  ⟨rfl, rfl⟩

set_option maxRecDepth 20000 in
/-- Claim C6 (code bug): construction with the unknown waveform name
`not_a_real_function` does raise `CycleFunctionUnavailable` with no fallback,
but the raised message does not contain `triangular`: the format template
has a single placeholder, so the second `format` argument — the joined
registry names — is silently dropped and the message enumerates nothing. -/
theorem unknown_waveform_message_lacks_registry :
    init 5 (1/100) (1/100000) (Sum.inr ("not_a_real_function")) 0 =
      Except.error (SchedulerError.cycleFunctionUnavailable
        (unknownFuncMsg ("not_a_real_function"))) ∧
      containsChars ("triangular".data)
        ((unknownFuncMsg ("not_a_real_function")).data) = false :=
  ⟨rfl, by decide⟩

/-- Claim C8 (confirmed against the spec-modelled definition):
`reset_to_floor` sets the externally observed learning rate to exactly
`min_lr`, bypassing the waveform, for every prior scheduler state
(in particular for every counter value). -/
theorem reset_to_floor_sets_min_lr (s : CyclicLR) :
    (reset_to_floor s).2 = s.min_lr ∧ (reset_to_floor s).1 = s :=
  ⟨rfl, rfl⟩

/-- Claim C9 (confirmed against the spec-modelled definition):
`stepsize_candidates` fails with `ConfigurationError` when
`batch_size ≤ 0`, returns the ordered sequence
`floor (multiplier * samples_per_epoch / 2)` for multipliers 2..9 when
`batch_size > 0`, and in particular returns
`[100, 150, 200, 250, 300, 350, 400, 450]` for `batch_size = 32`,
`n_samples = 3200`. -/
theorem stepsize_candidates_spec (b n : ℤ) :
    (b ≤ 0 → stepsize_candidates b n = Except.error ConfigurationError.invalidArgument) ∧
      (0 < b → stepsize_candidates b n =
        Except.ok (([2, 3, 4, 5, 6, 7, 8, 9] : List ℤ).map
          (fun m => ⌊(m : ℚ) * ((n : ℚ) / (b : ℚ)) / 2⌋))) ∧
        stepsize_candidates 32 3200 =
          Except.ok [100, 150, 200, 250, 300, 350, 400, 450] := by
  refine ⟨fun h => ?_, fun h => ?_, ?_⟩
  · rw [stepsize_candidates, if_pos h]
  · rw [stepsize_candidates, if_neg (not_le.mpr h)]
  · rw [stepsize_candidates, if_neg (by norm_num)]
    norm_num

/-- Witness for C9: the error branch at `batch_size = -5` and the concrete
sequence at `batch_size = 32`, `n_samples = 3200`. -/
theorem stepsize_candidates_spec_witness :
    stepsize_candidates (-5) 10 = Except.error ConfigurationError.invalidArgument ∧
      stepsize_candidates 32 3200 =
        Except.ok [100, 150, 200, 250, 300, 350, 400, 450] :=
  ⟨(stepsize_candidates_spec (-5) 10).1 (by decide),
    (stepsize_candidates_spec 32 3200).2.2⟩

/-- Claim C10 (confirmed): `cycle` leaves every configuration field
(stepsize, the two bounds, the decay and the selected waveform) unchanged
and mutates only the counter; in particular a second call recomputes its
rate from the originally configured bounds, so the decay arithmetic in
`triangular` (which rebinds only its local parameters) never accumulates
into the stored state. -/
theorem cycle_frame_condition (s : CyclicLR) :
    (cycle s).1.stepsize = s.stepsize ∧
      (cycle s).1.max_lr = s.max_lr ∧
        (cycle s).1.min_lr = s.min_lr ∧
          (cycle s).1.decay = s.decay ∧
            (cycle s).1.func = s.func ∧
              (cycle s).1.epoch_counter = s.epoch_counter + 1 ∧
                (cycle (cycle s).1).2.1 =
                  s.func (s.epoch_counter + 1) s.stepsize s.min_lr s.max_lr s.decay :=
  ⟨rfl, rfl, rfl, rfl, rfl, rfl, rfl⟩
